import Mathlib

/-!
Shallow embedding of the auth-sync adapter in `src/src/index.ts` (the
SvelteKitPocketBase class), together with proofs of the testable properties
of its session-synchronization protocol.

The PocketBase SDK is an external collaborator: its auth store is modelled by
its observable fields `(token, model)`, its validity check, cookie decoding
and refresh call are abstract parameters, and `exportToCookie` is modelled by
carrying the exported store itself as the cookie value (the string encoding
is the black box of the SDK and must round-trip the store).
-/

namespace SvelteKitPB

/-- The observable state of a PocketBase `authStore`: the bearer `token`
(empty string is the canonical absent value) and the auth `model`
(`none` for `null`/`undefined`). `authStore.clear()` produces `⟨"", none⟩`,
`authStore.save(t, m)` produces `⟨t, m⟩`. -/
structure AuthStore (M : Type) where
  token : String
  model : Option M
deriving DecidableEq

/-- The wire type `SyncJsonType` of `src/src/index.ts`: every field optional.
`model` distinguishes an absent field (outer `none`) from an explicit JSON
null (`some none`). -/
structure SyncJson (M : Type) where
  hasUpdate : Option Bool
  isValid : Option Bool
  token : Option String
  model : Option (Option M)
deriving DecidableEq

/-- A response built by `handleSync`: the JSON body plus at most one appended
`set-cookie` header, whose value is `authStore.exportToCookie()`, modelled as
the exported store itself. -/
structure SyncResponse (M : Type) where
  body : SyncJson M
  setCookie : Option (AuthStore M)
deriving DecidableEq

/-- JS loose equality between the boolean `authStore.isValid` and the optional
`isValid` field of a parsed message: in JS, `b == undefined` is `false` for
either boolean `b`, and boolean-to-boolean comparison is ordinary equality. -/
def jsEqBool (b : Bool) (o : Option Bool) : Bool :=
  match o with
  | some c => b == c
  | none => false

/-- JS truthiness of an optional boolean field: `undefined` and `false` are
falsy, `true` is truthy. -/
def jsTruthy (o : Option Bool) : Bool :=
  match o with
  | some c => c
  | none => false

/-- Character-list core of JS `String.prototype.startsWith`. -/
def charsStart (p s : List Char) : Bool :=
  match p, s with
  | [], _ => true
  | _ :: _, [] => false
  | c :: p, d :: s => c == d && charsStart p s

/-- JS `String.prototype.startsWith`: `jsStartsWith s p` is `s.startsWith(p)`
in the source, true iff `p` is an initial segment of `s`. -/
def jsStartsWith (s p : String) : Bool :=
  charsStart p.data s.data

/-- The outcome of the clearing path of `handleSync` (lines 199-210):
`authStore.clear()`, then the body `{hasUpdate: true, token: authStore.token,
model: authStore.model}` — read after the clear, hence `""` and null — and a
`set-cookie` header exporting the cleared store. -/
def syncClearOutcome {M : Type} : AuthStore M × SyncResponse M :=
  (⟨"", none⟩, ⟨⟨some true, none, some "", some none⟩, some ⟨"", none⟩⟩)

/-- Lines 173-211 of `src/src/index.ts`: the body of `handleSync` once
`request.json()` has produced `clientAuthStore = msg`. `isValid` is the SDK
validity predicate on stores, kept abstract. First the loose-equality check of
the two validity flags (body `{hasUpdate: false}`, no cookie); then, when the
client message is truthy-valid, `authStore.save(msg.token || "", msg.model)`
and, if the saved store is valid, body `{hasUpdate: false}` plus a cookie for
the adopted store; every remaining path clears the store. Returns the final
server store and the response. -/
def syncReconcile {M : Type} (isValid : AuthStore M → Bool)
    (store : AuthStore M) (msg : SyncJson M) : AuthStore M × SyncResponse M :=
  if jsEqBool (isValid store) msg.isValid then
    (store, ⟨⟨some false, none, none, none⟩, none⟩)
  else if jsTruthy msg.isValid then
    let adopted : AuthStore M := ⟨msg.token.getD "", msg.model.join⟩
    if isValid adopted then
      (adopted, ⟨⟨some false, none, none, none⟩, some adopted⟩)
    else syncClearOutcome
  else syncClearOutcome

/-- `handleSync` (lines 167-211) including its first statement
`await request.json()`: a request body that is not valid JSON makes
`request.json()` reject, which propagates as `.error`; a parsed body is
handed to the reconciliation logic. -/
def handleSync {M : Type} (isValid : AuthStore M → Bool)
    (store : AuthStore M) (body : Option (SyncJson M)) :
    Except Unit (AuthStore M × SyncResponse M) :=
  match body with
  | none => Except.error ()
  | some msg => Except.ok (syncReconcile isValid store msg)

/-- Lines 148-155 of `hookHandler`:
`try { authStore.isValid && await collection(userCollection).authRefresh() }
catch { authStore.clear() }`. `refresh` models the SDK call `authRefresh()`:
on success the SDK saves the refreshed token/model into the store (`.ok`),
on rejection it throws (`.error`). The returned flag records whether a
refresh call was issued at all (the `&&` short-circuits on an invalid store).
The stage is a total function: a rejection is caught and turned into the
cleared store, never propagated. -/
def refreshStage {M : Type} (isValid : AuthStore M → Bool)
    (refresh : AuthStore M → Except Unit (AuthStore M))
    (store : AuthStore M) : AuthStore M × Bool :=
  if isValid store then
    match refresh store with
    | Except.ok s => (s, true)
    | Except.error _ => (⟨"", none⟩, true)
  else (store, false)

/-- What one `hookHandler` invocation produces. `locals` is the auth store of
the request-scoped client `event.locals.pb` at the end; `adapterUser` is the
value of the shared svelte store `this.user` of the adapter instance after
the call; `refreshCalled` records whether `authRefresh` was invoked;
`response = none` is the `false` "not handled" sentinel, `some (.error _)` a
rejection escaping from `handleSync` (unparseable JSON body), `some (.ok r)`
the sync response. -/
structure HookOutcome (M : Type) where
  locals : AuthStore M
  adapterUser : Option M
  refreshCalled : Bool
  response : Option (Except Unit (SyncResponse M))

/-- Lines 143-164 of `hookHandler`: the continuation behind its first
statement (line 141, embedded in `hookHandler` below). `decode` models
`authStore.loadFromCookie`, applied to the `cookie` header or `""` when the
header is absent; then the refresh stage; then line 157 writes the refreshed
model into the shared adapter store `this.user` (`adapterUser` is the value
the store held before the call; the code never reads it); then, when the
pathname has the sync route as a string prefix, delegation to `handleSync` —
the HTTP `method` is never inspected — and otherwise the `false` sentinel. -/
def hookHandlerBody {M : Type} (isValid : AuthStore M → Bool)
    (refresh : AuthStore M → Except Unit (AuthStore M))
    (decode : String → AuthStore M)
    (adapterUser : Option M) (cookieHeader : Option String)
    (syncRoute pathname method : String)
    (body : Option (SyncJson M)) : HookOutcome M :=
  let store0 := decode (cookieHeader.getD "")
  let stage := refreshStage isValid refresh store0
  let store1 := stage.1
  if jsStartsWith pathname syncRoute then
    match handleSync isValid store1 body with
    | Except.error e => ⟨store1, store1.model, stage.2, some (Except.error e)⟩
    | Except.ok res => ⟨res.1, store1.model, stage.2, some (Except.ok res.2)⟩
  else ⟨store1, store1.model, stage.2, none⟩

/-- The observable configuration of a PocketBase client instance. -/
structure PBClient where
  baseUrl : String
  autoCancel : Bool
deriving DecidableEq

/-- The accessor `get pb()` (lines 110-118). In the browser it returns the
stored private instance. On SSR its body evaluates `this.pb.baseUrl`, i.e. it
re-enters the very same accessor before constructing anything; evaluation is
therefore given a fuel bound, with `none` meaning the budget was exhausted
without the accessor returning a value. When the inner access does return a
client, a fresh instance with that base URL and auto-cancellation disabled is
constructed. -/
def pbGetter (ssr : Bool) (pbPriv : PBClient) : Nat → Option PBClient
  | 0 => none
  | n + 1 =>
    if ssr then
      match pbGetter ssr pbPriv n with
      | some inner => some ⟨inner.baseUrl, false⟩
      | none => none
    else some pbPriv

/-- `hookHandler` (lines 140-165) in full. Its first statement (line 141)
`event.locals.pb = this.pb` evaluates the `pb` accessor — `pbGetter`, given
a fuel budget — and only if that evaluation returns a client does execution
reach lines 143-164 (`hookHandlerBody`). The result `none` is the run in
which line 141 never completed within the budget: the stack-overflow error
of the accessor recursion, which `hookHandler` does not catch, escaping to
the caller before anything below line 141 runs. -/
def hookHandler {M : Type} (ssr : Bool) (pbPriv : PBClient) (fuel : Nat)
    (isValid : AuthStore M → Bool)
    (refresh : AuthStore M → Except Unit (AuthStore M))
    (decode : String → AuthStore M)
    (adapterUser : Option M) (cookieHeader : Option String)
    (syncRoute pathname method : String)
    (body : Option (SyncJson M)) : Option (HookOutcome M) :=
  match pbGetter ssr pbPriv fuel with
  | none => none
  | some _ =>
    some (hookHandlerBody isValid refresh decode adapterUser cookieHeader
      syncRoute pathname method body)

/-- The client `fetch` response as observed by the first `authSync`
(lines 216-235): the `ok` flag and the parsed response body. -/
structure FetchReply (M : Type) where
  ok : Bool
  body : SyncJson M
deriving DecidableEq

/-- `authSync` of the first class (lines 216-235): POSTs the local state,
then only checks `result.ok` — logging and returning `false` on a non-success
status, `true` otherwise. It never reads the response body, and the local
auth store is returned untouched in both branches. -/
def authSync {M : Type} (localStore : AuthStore M) (result : FetchReply M) :
    AuthStore M × Bool :=
  if !result.ok then (localStore, false) else (localStore, true)

/-- `authSync` of the second class (lines 448-464): parses the response body
and, when `hasUpdate` is truthy, runs
`authStore.save(response.token || "", response.model)` on the local store. -/
def authSyncApply {M : Type} (localStore : AuthStore M) (respBody : SyncJson M) :
    AuthStore M :=
  if jsTruthy respBody.hasUpdate then
    ⟨respBody.token.getD "", respBody.model.join⟩
  else localStore

/-- An outbound request as seen by `hookFetchHandler`: its URL and headers. -/
structure OutRequest where
  url : String
  headers : List (String × String)
deriving DecidableEq

/-- `Headers.set` of the Fetch API: replace the value of an existing entry
with the given name, or append a new entry. -/
def headersSet (hs : List (String × String)) (k v : String) :
    List (String × String) :=
  if hs.any (fun p => p.1 == k) then
    hs.map (fun p => if p.1 == k then (k, v) else p)
  else hs ++ [(k, v)]

/-- `Headers.get`: the value of the first entry with the given name. -/
def headerGet (hs : List (String × String)) (k : String) : Option String :=
  (hs.find? (fun p => p.1 == k)).map Prod.snd

/-- `hookFetchHandler` (lines 255-262): a request whose URL starts with the
request-scoped client `baseUrl` gets its `Authorization` header set to the
auth store token and is dispatched via `fetch` (`some` is the dispatched
request); any other request yields the `false` sentinel (`none`), untouched. -/
def hookFetchHandler (baseUrl token : String) (req : OutRequest) :
    Option OutRequest :=
  if jsStartsWith req.url baseUrl then
    some ⟨req.url, headersSet req.headers "Authorization" token⟩
  else none

/-- A concrete instance of the black-box SDK validity predicate, following
§3 of the design: valid iff the token is nonempty and the model is present.
Used only to instantiate witnesses and counterexamples. -/
def sampleIsValid (s : AuthStore Nat) : Bool :=
  s.token != "" && s.model.isSome

/-- Helper for the header lemma: searching the replaced header list finds the
fresh entry exactly when some entry with the name existed. -/
theorem find_headersSet_replace {k v : String} (hs : List (String × String)) :
    ((hs.map fun p => if p.1 == k then (k, v) else p).find? fun p => p.1 == k) =
      if hs.any (fun p => p.1 == k) then some (k, v) else none := by
  induction hs with
  | nil => rfl
  | cons p t ih =>
    by_cases hp : (p.1 == k) = true
    · simp [hp, List.find?]
    · have hb : (p.1 == k) = false := by
        cases hx : (p.1 == k)
        · rfl
        · exact absurd hx hp
      rw [List.map_cons, if_neg hp, List.find?_cons, hb, List.any_cons, hb]
      simpa using ih

/-- `Headers.set` followed by `Headers.get` on the same name yields the value
just set. -/
theorem headerGet_headersSet (hs : List (String × String)) (k v : String) :
    headerGet (headersSet hs k v) k = some v := by
  unfold headersSet headerGet
  by_cases h : (hs.any fun p => p.1 == k) = true
  · rw [if_pos h, find_headersSet_replace, if_pos h]
    rfl
  · rw [if_neg h]
    have hnone : (hs.find? fun p => p.1 == k) = none := by
      rw [List.find?_eq_none]
      intro x hx
      have hb : (hs.any fun p => p.1 == k) = false := by
        cases hany : hs.any fun p => p.1 == k
        · rfl
        · exact absurd hany h
      exact List.any_eq_false.mp hb x hx
    rw [List.find?_append, hnone]
    simp [List.find?]

/-- Core divergence fact shared by the hook theorems: on SSR the `pb`
accessor yields no client at any budget — line 113 re-enters the accessor
with no base case (the backing field is the private `_pb`). -/
theorem pbGetter_ssr_none (pbPriv : PBClient) (fuel : Nat) :
    pbGetter true pbPriv fuel = none := by
  induction fuel with
  | zero => rfl
  | succ n ih => simp [pbGetter, ih]

/-- Consequently `hookHandler` on the server never reaches the code behind
line 141: every server request, with any configuration and any budget,
produces no outcome. -/
theorem hookHandler_ssr_none {M : Type} (pbPriv : PBClient) (fuel : Nat)
    (isValid : AuthStore M → Bool)
    (refresh : AuthStore M → Except Unit (AuthStore M))
    (decode : String → AuthStore M)
    (adapterUser : Option M) (cookieHeader : Option String)
    (syncRoute pathname method : String) (body : Option (SyncJson M)) :
    hookHandler true pbPriv fuel isValid refresh decode adapterUser
      cookieHeader syncRoute pathname method body = none := by
  unfold hookHandler
  rw [pbGetter_ssr_none]

/-- C1: with an invalid server store and a client message that claims
validity and carries token `t` and a model, `handleSync` saves the client
token and model into the server auth store; if the saved store is valid, it
returns the body `{hasUpdate: false}` together with a `set-cookie` header
encoding the new server state. -/
theorem c1_adoption {M : Type} (isValid : AuthStore M → Bool)
    (store : AuthStore M) (msg : SyncJson M) (t : String)
    (hs : isValid store = false) (hv : msg.isValid = some true)
    (ht : msg.token = some t)
    (ha : isValid ⟨t, msg.model.join⟩ = true) :
    handleSync isValid store (some msg) =
      Except.ok (⟨t, msg.model.join⟩,
        ⟨⟨some false, none, none, none⟩, some ⟨t, msg.model.join⟩⟩) := by
  have ha' : isValid ⟨t, msg.model.bind fun a => a⟩ = true := ha
  simp [handleSync, syncReconcile, jsEqBool, jsTruthy, hs, hv, ht, ha, ha']

/-- C1 witness: a concrete adoption run. -/
theorem c1_adoption_witness :
    handleSync sampleIsValid ⟨"", none⟩
        (some ⟨none, some true, some "tok", some (some 3)⟩) =
      Except.ok (⟨"tok", some 3⟩,
        ⟨⟨some false, none, none, none⟩, some ⟨"tok", some 3⟩⟩) :=
  c1_adoption sampleIsValid ⟨"", none⟩
    ⟨none, some true, some "tok", some (some 3)⟩ "tok" rfl rfl rfl rfl

/-- C2: when the two validity flags differ under JS loose equality and
either the client explicitly claims invalidity or the adopted store would
still be invalid, `handleSync` fully clears the server store and returns
exactly the body `{hasUpdate: true, token: "", model: null}` with a
`set-cookie` header encoding the cleared state. -/
theorem c2_symmetric_clearing {M : Type} (isValid : AuthStore M → Bool)
    (store : AuthStore M) (msg : SyncJson M)
    (hneq : jsEqBool (isValid store) msg.isValid = false)
    (hclear : msg.isValid = some false ∨
      isValid ⟨msg.token.getD "", msg.model.join⟩ = false) :
    handleSync isValid store (some msg) =
      Except.ok (⟨"", none⟩,
        ⟨⟨some true, none, some "", some none⟩, some ⟨"", none⟩⟩) := by
  rcases hclear with h | h
  · rw [h] at hneq
    simp [handleSync, syncReconcile, syncClearOutcome, hneq, h, jsTruthy]
  · have h' : isValid ⟨msg.token.getD "", msg.model.bind fun a => a⟩ = false := h
    cases hjt : jsTruthy msg.isValid
    · simp [handleSync, syncReconcile, syncClearOutcome, hneq, hjt]
    · simp [handleSync, syncReconcile, syncClearOutcome, hneq, hjt, h, h']

/-- C2 witness: a valid server store against a client that says invalid. -/
theorem c2_symmetric_clearing_witness :
    handleSync sampleIsValid ⟨"t", some 1⟩
        (some ⟨none, some false, none, none⟩) =
      Except.ok (⟨"", none⟩,
        ⟨⟨some true, none, some "", some none⟩, some ⟨"", none⟩⟩) :=
  c2_symmetric_clearing sampleIsValid ⟨"t", some 1⟩
    ⟨none, some false, none, none⟩ rfl (Or.inl rfl)

/-- C3: a client message whose `isValid` field equals the server store
validity makes `handleSync` return the body `{hasUpdate: false}` with no
`set-cookie` header and the server store unchanged. -/
theorem c3_equal_states {M : Type} (isValid : AuthStore M → Bool)
    (store : AuthStore M) (msg : SyncJson M)
    (h : msg.isValid = some (isValid store)) :
    handleSync isValid store (some msg) =
      Except.ok (store, ⟨⟨some false, none, none, none⟩, none⟩) := by
  simp [handleSync, syncReconcile, jsEqBool, h]

/-- C3 witness: an invalid server store against a client that says invalid. -/
theorem c3_equal_states_witness :
    handleSync sampleIsValid ⟨"", none⟩
        (some ⟨none, some false, none, none⟩) =
      Except.ok (⟨"", none⟩, ⟨⟨some false, none, none, none⟩, none⟩) :=
  c3_equal_states sampleIsValid ⟨"", none⟩
    ⟨none, some false, none, none⟩ rfl

/-- C4 (code bug): on SSR the `pb` accessor body reads `this.pb.baseUrl`,
re-entering the very same accessor unconditionally, so no fuel budget ever
suffices for it to return a client: evaluation diverges instead of
terminating with a fresh instance. -/
theorem c4_pb_getter_diverges (pbPriv : PBClient) :
    ∀ fuel : Nat, pbGetter true pbPriv fuel = none := by
  intro fuel
  induction fuel with
  | zero => rfl
  | succ n ih => simp [pbGetter, ih]

/-- C5 counterexample: a successful POST whose response carries
`hasUpdate: true` with a server token, yet the first `authSync` leaves the
local store unchanged rather than overwriting it with the returned state. -/
theorem c5_no_overwrite_counterexample :
    (authSync (M := Nat) ⟨"old", some 1⟩
        ⟨true, ⟨some true, none, some "srv", some (some 7)⟩⟩).1 =
      ⟨"old", some 1⟩ ∧ ("old" : String) ≠ "srv" := by
  exact ⟨rfl, by decide⟩

/-- C5 amended: the first `authSync` only reports `result.ok` and never
modifies the local auth store; the second `authSync` overwrites the local
store with the returned token and model exactly when the parsed response has
`hasUpdate: true`. -/
theorem c5_watcher_update {M : Type} (localStore : AuthStore M)
    (result : FetchReply M) (respBody : SyncJson M)
    (h : respBody.hasUpdate = some true) :
    authSync localStore result = (localStore, result.ok) ∧
      authSyncApply localStore respBody =
        ⟨respBody.token.getD "", respBody.model.join⟩ := by
  constructor
  · cases hok : result.ok <;> simp [authSync, hok]
  · simp [authSyncApply, jsTruthy, h]

/-- C5 witness: a concrete update applied by the second `authSync`. -/
theorem c5_watcher_update_witness :
    authSync (M := Nat) ⟨"a", some 1⟩ ⟨true, ⟨some true, none, some "b", some (some 2)⟩⟩ =
        (⟨"a", some 1⟩, true) ∧
      authSyncApply (M := Nat) ⟨"a", some 1⟩ ⟨some true, none, some "b", some (some 2)⟩ =
        ⟨"b", some 2⟩ :=
  c5_watcher_update ⟨"a", some 1⟩ ⟨true, ⟨some true, none, some "b", some (some 2)⟩⟩
    ⟨some true, none, some "b", some (some 2)⟩ rfl

/-- C6 counterexample: two concrete failures of the claim as stated. An
unparseable body makes `handleSync` reject — the `request.json()` rejection
propagates uncaught, failing the request — and a parsed message with
`isValid` missing against an invalid server store does not yield
`{hasUpdate: false}`: in JS `false == undefined` is `false`, so the mismatch
path runs and the response has `hasUpdate: true`. -/
theorem c6_safe_default_counterexample :
    handleSync sampleIsValid ⟨"", none⟩ none = Except.error () ∧
      (syncReconcile sampleIsValid ⟨"", none⟩
        ⟨none, none, none, none⟩).2.body.hasUpdate ≠ some false :=
  ⟨rfl, by decide⟩

/-- C6 amended: `handleSync` fails the request outright when the body is
unparseable (the `request.json()` rejection propagates), while on every
parsed body it returns without throwing; a message with `isValid` missing
loosely equals neither validity flag and is falsy, so against an invalid
server store the clearing path runs: the response is `{hasUpdate: true,
token: "", model: null}` plus the cookie of the cleared store — a
logged-out degradation, not the claimed `{hasUpdate: false}`. -/
theorem c6_sync_body_handling {M : Type} (isValid : AuthStore M → Bool)
    (store : AuthStore M) (msg : SyncJson M)
    (hs : isValid store = false) (hm : msg.isValid = none) :
    handleSync isValid store none = Except.error () ∧
      handleSync isValid store (some msg) =
        Except.ok (⟨"", none⟩,
          ⟨⟨some true, none, some "", some none⟩, some ⟨"", none⟩⟩) := by
  refine ⟨rfl, ?_⟩
  simp [handleSync, syncReconcile, syncClearOutcome, jsEqBool, jsTruthy, hs, hm]

/-- C6 witness: the all-fields-missing message against the empty store. -/
theorem c6_sync_body_handling_witness :
    handleSync sampleIsValid ⟨"", none⟩ none = Except.error () ∧
      handleSync sampleIsValid ⟨"", none⟩ (some ⟨none, none, none, none⟩) =
        Except.ok (⟨"", none⟩,
          ⟨⟨some true, none, some "", some none⟩, some ⟨"", none⟩⟩) :=
  c6_sync_body_handling sampleIsValid ⟨"", none⟩
    ⟨none, none, none, none⟩ rfl rfl

/-- C7 (code bug): the recovery the claim describes lives at lines 148-155
and behaves exactly as claimed in the continuation behind line 141 — a valid
decoded state whose single refresh call rejects ends with the store fully
cleared (token `""`, model null, never partial) and the rejection absorbed,
while an invalid decoded state issues no refresh call — but the program
never reaches it: line 141 evaluates the divergent `pb` accessor first, so
on the server `hookHandler` completes at no budget and the accessor error,
not a recovered state, is what the caller sees. -/
theorem c7_refresh_recovery_unreachable {M : Type} (pbPriv : PBClient)
    (isValid : AuthStore M → Bool)
    (refresh : AuthStore M → Except Unit (AuthStore M))
    (decode : String → AuthStore M) (adapterUser : Option M)
    (cookieHeader : Option String) (syncRoute pathname method : String)
    (body : Option (SyncJson M)) (s : AuthStore M)
    (hdec : decode (cookieHeader.getD "") = s) :
    (∀ fuel : Nat, hookHandler true pbPriv fuel isValid refresh decode
        adapterUser cookieHeader syncRoute pathname method body = none) ∧
    (isValid s = true → refresh s = Except.error () →
      refreshStage isValid refresh s = (⟨"", none⟩, true) ∧
        (jsStartsWith pathname syncRoute = false →
          hookHandlerBody isValid refresh decode adapterUser cookieHeader
              syncRoute pathname method body =
            ⟨⟨"", none⟩, none, true, none⟩)) ∧
    (isValid s = false → refreshStage isValid refresh s = (s, false)) := by
  refine ⟨fun fuel => hookHandler_ssr_none pbPriv fuel isValid refresh decode
    adapterUser cookieHeader syncRoute pathname method body, ?_, ?_⟩
  · intro hv herr
    have hstage : refreshStage isValid refresh s = (⟨"", none⟩, true) := by
      simp [refreshStage, hv, herr]
    refine ⟨hstage, fun hpath => ?_⟩
    simp [hookHandlerBody, hdec, hstage, hpath]
  · intro hv
    simp [refreshStage, hv]

/-- C7 witness: at a concrete request with a valid decoded state and a
rejecting refresh, the full handler yields nothing at budget 1000 while the
dead continuation would recover as claimed. -/
theorem c7_refresh_recovery_unreachable_witness :
    hookHandler true ⟨"http://127.0.0.1:8090", false⟩ 1000 sampleIsValid
        (fun _ => Except.error ()) (fun _ => ⟨"t", some 1⟩) (some 5) none
        "/users/sync" "/x" "GET" none = none ∧
      refreshStage sampleIsValid (fun _ => Except.error ()) ⟨"t", some 1⟩ =
        (⟨"", none⟩, true) ∧
      hookHandlerBody sampleIsValid (fun _ => Except.error ())
          (fun _ => ⟨"t", some 1⟩) (some 5) none "/users/sync" "/x" "GET"
          none =
        ⟨⟨"", none⟩, none, true, none⟩ :=
  have h := c7_refresh_recovery_unreachable ⟨"http://127.0.0.1:8090", false⟩
    sampleIsValid (fun _ => Except.error ()) (fun _ => ⟨"t", some 1⟩) (some 5)
    none "/users/sync" "/x" "GET" none ⟨"t", some 1⟩ rfl
  ⟨h.1 1000, (h.2.1 rfl rfl).1, (h.2.1 rfl rfl).2 (by decide)⟩

/-- C8 counterexample: at this concrete server request the handler completes
at no budget up to 1000 (and `c8_no_write_at_all` extends this to every
budget and input) — line 141 diverges first — so the derived auth state is
never written to `event.locals` at all, against the claim that every server
request gets the derived state written there. -/
theorem c8_no_locals_write_counterexample :
    ((List.range 1000).all fun fuel =>
      (hookHandler true ⟨"http://127.0.0.1:8090", false⟩ fuel sampleIsValid
        (fun s => Except.ok s) (fun _ => ⟨"t", some 5⟩) none none
        "/users/sync" "/x" "GET" none).isNone) = true := by
  rw [List.all_eq_true]
  intro fuel hf
  simp [hookHandler_ssr_none]

/-- C8 amended: on the server `hookHandler` performs no write at all — not
the claimed request-scoped `event.locals` write, and no mutation of
adapter-instance state shared between concurrent requests either — because
its first statement (line 141) diverges before the cookie is decoded, for
every request, every configuration and every budget. -/
theorem c8_no_write_at_all {M : Type} (pbPriv : PBClient) (fuel : Nat)
    (isValid : AuthStore M → Bool)
    (refresh : AuthStore M → Except Unit (AuthStore M))
    (decode : String → AuthStore M) (adapterUser : Option M)
    (cookieHeader : Option String) (syncRoute pathname method : String)
    (body : Option (SyncJson M)) :
    hookHandler true pbPriv fuel isValid refresh decode adapterUser
      cookieHeader syncRoute pathname method body = none :=
  hookHandler_ssr_none pbPriv fuel isValid refresh decode adapterUser
    cookieHeader syncRoute pathname method body

/-- C9: an outbound request whose URL starts with the client base URL is
dispatched with its `Authorization` header set to the held token — reading
that header back yields the token — while a request to any other origin
yields the `false` sentinel with the request untouched. -/
theorem c9_outbound_auth (baseUrl token : String) (req : OutRequest) :
    (jsStartsWith req.url baseUrl = true →
      hookFetchHandler baseUrl token req =
        some ⟨req.url, headersSet req.headers "Authorization" token⟩ ∧
      headerGet (headersSet req.headers "Authorization" token)
          "Authorization" = some token) ∧
    (jsStartsWith req.url baseUrl = false →
      hookFetchHandler baseUrl token req = none) := by
  constructor
  · intro h
    exact ⟨by simp [hookFetchHandler, h],
      headerGet_headersSet req.headers "Authorization" token⟩
  · intro h
    simp [hookFetchHandler, h]

/-- C9 witness: one request to the backend origin, one elsewhere. -/
theorem c9_outbound_auth_witness :
    (hookFetchHandler "http://pb" "tk" ⟨"http://pb/api", []⟩ =
        some ⟨"http://pb/api", [("Authorization", "tk")]⟩ ∧
      headerGet (headersSet [] "Authorization" "tk") "Authorization" =
        some "tk") ∧
    hookFetchHandler "http://pb" "tk" ⟨"http://other/api", []⟩ = none :=
  ⟨(c9_outbound_auth "http://pb" "tk" ⟨"http://pb/api", []⟩).1 (by decide),
    (c9_outbound_auth "http://pb" "tk" ⟨"http://other/api", []⟩).2 (by decide)⟩

/-- C10 (code bug): lines 159-164 do implement prefix-based, method-agnostic
delegation — in the continuation behind line 141, every pathname with the
sync route as a string prefix, strict extensions included and for any HTTP
method, is delegated to `handleSync` on the post-refresh store (the body
parse attempted, a `request.json()` rejection escaping as `.error`) and the
`false` sentinel is never produced — but the program never executes them: on
the server `hookHandler` dies in line 141, before the prefix check, at every
budget. -/
theorem c10_sync_delegation_unreachable {M : Type} (pbPriv : PBClient)
    (isValid : AuthStore M → Bool)
    (refresh : AuthStore M → Except Unit (AuthStore M))
    (decode : String → AuthStore M) (adapterUser : Option M)
    (cookieHeader : Option String) (syncRoute pathname method : String)
    (body : Option (SyncJson M))
    (hp : jsStartsWith pathname syncRoute = true) :
    (∀ fuel : Nat, hookHandler true pbPriv fuel isValid refresh decode
        adapterUser cookieHeader syncRoute pathname method body = none) ∧
    (hookHandlerBody isValid refresh decode adapterUser cookieHeader
        syncRoute pathname method body).response =
      some ((handleSync isValid
          (refreshStage isValid refresh (decode (cookieHeader.getD ""))).1
          body).map Prod.snd) ∧
    (hookHandlerBody isValid refresh decode adapterUser cookieHeader
        syncRoute pathname method body).response ≠ none := by
  refine ⟨fun fuel => hookHandler_ssr_none pbPriv fuel isValid refresh decode
    adapterUser cookieHeader syncRoute pathname method body, ?_, ?_⟩ <;>
    cases body <;> simp [hookHandlerBody, handleSync, hp, Except.map]

/-- C10 witness: a strict extension of the sync route with a non-POST
method: the full handler yields nothing at budget 1000, while the dead
continuation would delegate. -/
theorem c10_sync_delegation_unreachable_witness :
    hookHandler true ⟨"http://127.0.0.1:8090", false⟩ 1000 sampleIsValid
        (fun s => Except.ok s) (fun _ => ⟨"", none⟩) none none "/users/sync"
        "/users/sync-anything" "DELETE" none = none ∧
      (hookHandlerBody sampleIsValid (fun s => Except.ok s)
          (fun _ => ⟨"", none⟩) none none "/users/sync"
          "/users/sync-anything" "DELETE" none).response =
        some ((handleSync sampleIsValid
            (refreshStage sampleIsValid (fun s => Except.ok s) ⟨"", none⟩).1
            none).map Prod.snd) ∧
      (hookHandlerBody sampleIsValid (fun s => Except.ok s)
          (fun _ => ⟨"", none⟩) none none "/users/sync"
          "/users/sync-anything" "DELETE" none).response ≠ none :=
  have h := c10_sync_delegation_unreachable ⟨"http://127.0.0.1:8090", false⟩
    sampleIsValid (fun s => Except.ok s) (fun _ => ⟨"", none⟩) none none
    "/users/sync" "/users/sync-anything" "DELETE" none (by decide)
  ⟨h.1 1000, h.2.1, h.2.2⟩

end SvelteKitPB
